import Mathlib

/-!
Verification of the Blood Bank Inventory Ledger of the saveablood
application (src/app.py), shallowly embedded in Lean 4.

The embedding follows the source closely:
  * `BloodBank` mirrors the `BloodBank` model: name, location and the
    eight per-type integer unit counters (Python ints are modelled as
    `Int`).
  * `BloodBank.get_inventory` mirrors `get_inventory`, returning the
    inventory dictionary as an association list in the source's key
    order.
  * `BloodBank.update_inventory` mirrors `update_inventory`: a lookup of
    the blood-type label in `type_map` selecting a counter column,
    followed by the donate / request branches.  Since the Python method
    mutates `self` in place, the Lean version returns the result flag
    together with the updated bank.
  * The route handlers `post_donation` and `request_blood` are modelled
    as pure transformers of an `AppState` (the database: banks keyed by
    id, the `BloodPost` table and the `BloodRequest` table), given an
    already-authenticated `User` and the validated form fields.
-/

/-- The eight inventory counter columns of the `BloodBank` table. -/
inductive Col where
  | A_pos
  | B_pos
  | O_pos
  | AB_pos
  | A_neg
  | B_neg
  | O_neg
  | AB_neg
deriving DecidableEq, Repr

/-- The `BloodBank` model: identity fields plus the eight per-type unit
counters (`db.Column(db.Integer)` in the source). -/
structure BloodBank where
  name : String
  location : String
  A_pos : Int
  B_pos : Int
  O_pos : Int
  AB_pos : Int
  A_neg : Int
  B_neg : Int
  O_neg : Int
  AB_neg : Int
deriving DecidableEq, Repr

/-- `getattr(self, col_name)` for the eight counter columns. -/
def getCol (b : BloodBank) : Col → Int
  | Col.A_pos => b.A_pos
  | Col.B_pos => b.B_pos
  | Col.O_pos => b.O_pos
  | Col.AB_pos => b.AB_pos
  | Col.A_neg => b.A_neg
  | Col.B_neg => b.B_neg
  | Col.O_neg => b.O_neg
  | Col.AB_neg => b.AB_neg

/-- `setattr(self, col_name, v)` for the eight counter columns. -/
def setCol (b : BloodBank) (c : Col) (v : Int) : BloodBank :=
  match c with
  | Col.A_pos => { b with A_pos := v }
  | Col.B_pos => { b with B_pos := v }
  | Col.O_pos => { b with O_pos := v }
  | Col.AB_pos => { b with AB_pos := v }
  | Col.A_neg => { b with A_neg := v }
  | Col.B_neg => { b with B_neg := v }
  | Col.O_neg => { b with O_neg := v }
  | Col.AB_neg => { b with AB_neg := v }

/-- `BloodBank.get_inventory`: the inventory dictionary, as an
association list in the source's key order. -/
def BloodBank.get_inventory (b : BloodBank) : List (String × Int) :=
  [("A+", b.A_pos), ("B+", b.B_pos), ("O+", b.O_pos), ("AB+", b.AB_pos),
   ("A-", b.A_neg), ("B-", b.B_neg), ("O-", b.O_neg), ("AB-", b.AB_neg)]

/-- The `type_map` dictionary lookup of `update_inventory`:
`type_map.get(blood_type)`, `None` for an unrecognized label. -/
def type_map (blood_type : String) : Option Col :=
  if blood_type = "A+" then some Col.A_pos
  else if blood_type = "B+" then some Col.B_pos
  else if blood_type = "O+" then some Col.O_pos
  else if blood_type = "AB+" then some Col.AB_pos
  else if blood_type = "A-" then some Col.A_neg
  else if blood_type = "B-" then some Col.B_neg
  else if blood_type = "O-" then some Col.O_neg
  else if blood_type = "AB-" then some Col.AB_neg
  else none

/-- `BloodBank.update_inventory`: returns the Python method's boolean
result together with the updated bank (the Python method mutates the
row in place and commits). -/
def BloodBank.update_inventory (b : BloodBank) (blood_type : String)
    (operation : String) : Bool × BloodBank :=
  match type_map blood_type with
  | none => (false, b)
  | some col =>
    let current_value := getCol b col
    if operation = "donate" then
      (true, setCol b col (current_value + 1))
    else if operation = "request" ∧ current_value > 0 then
      (true, setCol b col (current_value - 1))
    else
      (false, b)

/-- The spec's `inventory_snapshot` operation: `get_inventory` viewed as
a state-passing read, returning the mapping together with the
(unchanged) bank state. -/
def inventory_snapshot (b : BloodBank) : List (String × Int) × BloodBank :=
  (b.get_inventory, b)

/-- The eight recognized blood-type labels (the `blood_types` list of
the `blood_bank_inventory` route). -/
def labels : List String :=
  ["O-", "O+", "A-", "A+", "B-", "B+", "AB-", "AB+"]

/-- All eight counters of a bank are non-negative. -/
def nonneg (b : BloodBank) : Prop :=
  0 ≤ b.A_pos ∧ 0 ≤ b.B_pos ∧ 0 ≤ b.O_pos ∧ 0 ≤ b.AB_pos ∧
  0 ≤ b.A_neg ∧ 0 ≤ b.B_neg ∧ 0 ≤ b.O_neg ∧ 0 ≤ b.AB_neg

instance (b : BloodBank) : Decidable (nonneg b) := by
  unfold nonneg; infer_instance

/-- A sequence of ledger operations applied to one bank, each given as
a `(blood_type, operation)` pair fed to `update_inventory`. -/
def applyOps (b : BloodBank) : List (String × String) → BloodBank
  | [] => b
  | (t, op) :: rest => applyOps (b.update_inventory t op).2 rest

/-- The `User` model fields that the routes read. -/
structure User where
  id : Nat
  username : String
  blood_type : String
  location : String
  role : String
deriving DecidableEq, Repr

/-- The `BloodPost` model (a donation record). -/
structure BloodPost where
  content : String
  user_id : Nat
  blood_bank_id : Option Nat
deriving DecidableEq, Repr

/-- The `BloodRequest` model (a request record). -/
structure BloodRequest where
  blood_type_needed : String
  location_needed : String
  user_id : Nat
  blood_bank_id : Nat
  is_fulfilled : Bool
deriving DecidableEq, Repr

/-- The HTTP response of a route handler, reduced to what the modelled
handlers produce: a redirect to a named endpoint. -/
inductive Response where
  | redirect (endpoint : String)
deriving DecidableEq, Repr

/-- The persisted state the modelled routes touch: the `BloodBank`
table keyed by primary key, plus the `BloodPost` and `BloodRequest`
tables as append-only lists. -/
structure AppState where
  banks : Nat → Option BloodBank
  posts : List BloodPost
  requests : List BloodRequest

/-- The `post_donation` route, for an already-authenticated `user`:
role gate, bank lookup, `update_inventory(user.blood_type, 'donate')`
(result discarded by the source), then the `BloodPost` record. -/
def post_donation (st : AppState) (user : User) (blood_bank_id : Nat)
    (content : String) : Response × AppState :=
  if user.role ≠ "donor" then
    (Response.redirect "dashboard", st)
  else
    match st.banks blood_bank_id with
    | none => (Response.redirect "dashboard", st)
    | some bank =>
      let r := bank.update_inventory user.blood_type "donate"
      let new_post : BloodPost :=
        { content := "Donated " ++ user.blood_type ++ " unit to " ++
            r.2.name ++ ": " ++ content,
          user_id := user.id,
          blood_bank_id := some blood_bank_id }
      (Response.redirect "dashboard",
        { st with
            banks := fun j => if j = blood_bank_id then some r.2 else st.banks j,
            posts := st.posts ++ [new_post] })

/-- The `request_blood` route, for an already-authenticated `user`:
role gate, bank lookup, `update_inventory(blood_type_needed, 'request')`
when the bank exists, then the `BloodRequest` record with the resulting
`is_fulfilled` flag and `bank.location if bank else "Unknown"`. -/
def request_blood (st : AppState) (user : User) (blood_type_needed : String)
    (blood_bank_id : Nat) : Response × AppState :=
  if user.role ≠ "recipient" then
    (Response.redirect "dashboard", st)
  else
    match st.banks blood_bank_id with
    | none =>
      let new_request : BloodRequest :=
        { blood_type_needed := blood_type_needed,
          location_needed := "Unknown",
          user_id := user.id,
          blood_bank_id := blood_bank_id,
          is_fulfilled := false }
      (Response.redirect "dashboard",
        { st with requests := st.requests ++ [new_request] })
    | some bank =>
      let r := bank.update_inventory blood_type_needed "request"
      let new_request : BloodRequest :=
        { blood_type_needed := blood_type_needed,
          location_needed := r.2.location,
          user_id := user.id,
          blood_bank_id := blood_bank_id,
          is_fulfilled := r.1 }
      (Response.redirect "dashboard",
        { st with
            banks := fun j => if j = blood_bank_id then some r.2 else st.banks j,
            requests := st.requests ++ [new_request] })

theorem getCol_setCol (b : BloodBank) (c c2 : Col) (v : Int) :
    getCol (setCol b c v) c2 = if c2 = c then v else getCol b c2 := by
  cases c <;> cases c2 <;> simp [getCol, setCol]

theorem lookup_get_inventory (b : BloodBank) (T : String) :
    (b.get_inventory).lookup T = (type_map T).map (getCol b) := by
  unfold type_map
  split_ifs with h1 h2 h3 h4 h5 h6 h7 h8
  · subst h1; rfl
  · subst h2; rfl
  · subst h3; rfl
  · subst h4; rfl
  · subst h5; rfl
  · subst h6; rfl
  · subst h7; rfl
  · subst h8; rfl
  · have e1 : (T == "A+") = false := beq_eq_false_iff_ne.mpr h1
    have e2 : (T == "B+") = false := beq_eq_false_iff_ne.mpr h2
    have e3 : (T == "O+") = false := beq_eq_false_iff_ne.mpr h3
    have e4 : (T == "AB+") = false := beq_eq_false_iff_ne.mpr h4
    have e5 : (T == "A-") = false := beq_eq_false_iff_ne.mpr h5
    have e6 : (T == "B-") = false := beq_eq_false_iff_ne.mpr h6
    have e7 : (T == "O-") = false := beq_eq_false_iff_ne.mpr h7
    have e8 : (T == "AB-") = false := beq_eq_false_iff_ne.mpr h8
    simp [BloodBank.get_inventory, List.lookup, e1, e2, e3, e4, e5, e6, e7, e8]

def labelOf : Col → String
  | Col.A_pos => "A+"
  | Col.B_pos => "B+"
  | Col.O_pos => "O+"
  | Col.AB_pos => "AB+"
  | Col.A_neg => "A-"
  | Col.B_neg => "B-"
  | Col.O_neg => "O-"
  | Col.AB_neg => "AB-"

theorem type_map_some_eq {T : String} {c : Col} (h : type_map T = some c) :
    T = labelOf c := by
  unfold type_map at h
  split_ifs at h <;> simp_all <;> (subst h; rfl)

theorem type_map_inj {T T2 : String} {c : Col}
    (h1 : type_map T = some c) (h2 : type_map T2 = some c) : T = T2 := by
  rw [type_map_some_eq h1, type_map_some_eq h2]

theorem type_map_eq_none (L : String) (h : L ∉ labels) : type_map L = none := by
  unfold type_map
  split_ifs with h1 h2 h3 h4 h5 h6 h7 h8 <;> simp_all [labels]

theorem update_inventory_of_type_map_none (b : BloodBank) (T op : String)
    (h : type_map T = none) : b.update_inventory T op = (false, b) := by
  unfold BloodBank.update_inventory
  rw [h]

theorem update_inventory_of_type_map_some (b : BloodBank) (T op : String)
    (col : Col) (h : type_map T = some col) :
    b.update_inventory T op =
      (if op = "donate" then (true, setCol b col (getCol b col + 1))
       else if op = "request" ∧ getCol b col > 0 then
         (true, setCol b col (getCol b col - 1))
       else (false, b)) := by
  unfold BloodBank.update_inventory
  rw [h]

/-- Claim C1: a request against a recognized type whose current count is
zero returns `fulfilled = false` and leaves the whole inventory snapshot
of the bank unchanged. -/
theorem request_depleted_unfulfilled (b : BloodBank) (T : String)
    (h : (b.get_inventory).lookup T = some 0) :
    b.update_inventory T "request" = (false, b) ∧
    (b.update_inventory T "request").2.get_inventory = b.get_inventory := by
  rw [lookup_get_inventory] at h
  rcases htm : type_map T with _ | col
  · rw [htm] at h; simp at h
  · rw [htm] at h
    simp only [Option.map_some', Option.some.injEq] at h
    have he : b.update_inventory T "request" = (false, b) := by
      rw [update_inventory_of_type_map_some b T "request" col htm,
        if_neg (by decide), if_neg (by simp [h])]
    exact ⟨he, by rw [he]⟩

/-- Claim C2: a request against a recognized type with positive count
`n` returns `fulfilled = true`, the count becomes `n - 1`, and every
other label's entry in the snapshot is unchanged. -/
theorem request_available_fulfilled (b : BloodBank) (T : String) (n : Int)
    (h : (b.get_inventory).lookup T = some n) (hn : 0 < n) :
    (b.update_inventory T "request").1 = true ∧
    ((b.update_inventory T "request").2.get_inventory).lookup T = some (n - 1) ∧
    ∀ T2 : String, T2 ≠ T →
      ((b.update_inventory T "request").2.get_inventory).lookup T2 =
        (b.get_inventory).lookup T2 := by
  rw [lookup_get_inventory] at h
  rcases htm : type_map T with _ | col
  · rw [htm] at h; simp at h
  · rw [htm] at h
    simp only [Option.map_some', Option.some.injEq] at h
    have he : b.update_inventory T "request" =
        (true, setCol b col (getCol b col - 1)) := by
      rw [update_inventory_of_type_map_some b T "request" col htm,
        if_neg (by decide), if_pos ⟨rfl, by omega⟩]
    refine ⟨by rw [he], ?_, ?_⟩
    · rw [he, lookup_get_inventory, htm]
      simp [getCol_setCol, h]
    · intro T2 hT2
      rw [he, lookup_get_inventory, lookup_get_inventory]
      rcases htm2 : type_map T2 with _ | col2
    -- unrecognized label: both sides are none
      · rfl
      · have hcc : col2 ≠ col := fun hc => hT2 (type_map_inj (hc ▸ htm2) htm)
        simp [getCol_setCol, hcc]

/-- Claim C3: a donation of a recognized type always succeeds: the count
rises by exactly 1 and every other label's entry is unchanged. -/
theorem donate_succeeds (b : BloodBank) (T : String) (n : Int)
    (h : (b.get_inventory).lookup T = some n) :
    (b.update_inventory T "donate").1 = true ∧
    ((b.update_inventory T "donate").2.get_inventory).lookup T = some (n + 1) ∧
    ∀ T2 : String, T2 ≠ T →
      ((b.update_inventory T "donate").2.get_inventory).lookup T2 =
        (b.get_inventory).lookup T2 := by
  rw [lookup_get_inventory] at h
  rcases htm : type_map T with _ | col
  · rw [htm] at h; simp at h
  · rw [htm] at h
    simp only [Option.map_some', Option.some.injEq] at h
    have he : b.update_inventory T "donate" =
        (true, setCol b col (getCol b col + 1)) := by
      rw [update_inventory_of_type_map_some b T "donate" col htm, if_pos rfl]
    refine ⟨by rw [he], ?_, ?_⟩
    · rw [he, lookup_get_inventory, htm]
      simp [getCol_setCol, h]
    · intro T2 hT2
      rw [he, lookup_get_inventory, lookup_get_inventory]
      rcases htm2 : type_map T2 with _ | col2
      · rfl
      · have hcc : col2 ≠ col := fun hc => hT2 (type_map_inj (hc ▸ htm2) htm)
        simp [getCol_setCol, hcc]

/-- Claim C4: for a label outside the eight recognized ones, both the
donate and the request operation return failure and leave the bank
unchanged (in the source this failure is the `False` return of
`update_inventory`, not a raised exception). -/
theorem invalid_label_no_mutation (b : BloodBank) (L : String)
    (h : L ∉ labels) :
    b.update_inventory L "donate" = (false, b) ∧
    b.update_inventory L "request" = (false, b) := by
  have hn := type_map_eq_none L h
  exact ⟨update_inventory_of_type_map_none b L "donate" hn,
    update_inventory_of_type_map_none b L "request" hn⟩

theorem nonneg_update (b : BloodBank) (t op : String) (h : nonneg b) :
    nonneg (b.update_inventory t op).2 := by
  rcases htm : type_map t with _ | col
  · rw [update_inventory_of_type_map_none b t op htm]; exact h
  · rw [update_inventory_of_type_map_some b t op col htm]
    split_ifs with h1 h2
    · cases col <;> simp_all [setCol, getCol, nonneg] <;> omega
    · obtain ⟨-, hpos⟩ := h2
      cases col <;> simp_all [setCol, getCol, nonneg] <;> omega
    · exact h

theorem applyOps_nonneg (b : BloodBank) (ops : List (String × String))
    (h : nonneg b) : nonneg (applyOps b ops) := by
  induction ops generalizing b with
  | nil => exact h
  | cons p rest ih =>
    cases p with
    | mk t op => exact ih _ (nonneg_update b t op h)

theorem labels_present (b : BloodBank) :
    ∀ T ∈ labels, ((b.get_inventory).lookup T).isSome = true := by
  intro T hT
  fin_cases hT <;> rfl

/-- Claim C5: starting from a bank whose eight counters are all
non-negative, any sequence of `update_inventory` operations keeps every
counter non-negative, and the inventory snapshot always carries an entry
for each of the eight recognized labels. -/
theorem inventory_invariant (b : BloodBank) (ops : List (String × String))
    (h : nonneg b) :
    nonneg (applyOps b ops) ∧
    ∀ T ∈ labels, (((applyOps b ops).get_inventory).lookup T).isSome = true :=
  ⟨applyOps_nonneg b ops h, labels_present _⟩

/-- Claim C8: `inventory_snapshot` is a pure read: it returns the bank
state unchanged, and two consecutive calls with no intervening mutation
return identical mappings. -/
theorem inventory_snapshot_pure (b : BloodBank) :
    (inventory_snapshot b).2 = b ∧
    (inventory_snapshot (inventory_snapshot b).2).1 = (inventory_snapshot b).1 :=
  ⟨rfl, rfl⟩

/-- Claim C6: `request_blood` against a missing bank id still writes a
`BloodRequest` record with `is_fulfilled = false` and the sentinel
location `"Unknown"`, mutates no bank inventory, and redirects. -/
theorem request_blood_missing_bank (st : AppState) (user : User)
    (T : String) (i : Nat)
    (hrole : user.role = "recipient") (hb : st.banks i = none) :
    (request_blood st user T i).1 = Response.redirect "dashboard" ∧
    (request_blood st user T i).2.banks = st.banks ∧
    (request_blood st user T i).2.posts = st.posts ∧
    (request_blood st user T i).2.requests =
      st.requests ++
        [{ blood_type_needed := T, location_needed := "Unknown",
           user_id := user.id, blood_bank_id := i, is_fulfilled := false }] := by
  unfold request_blood
  rw [if_neg (by simp [hrole]), hb]
  exact ⟨rfl, rfl, rfl, rfl⟩

/-- Claim C7: `post_donation` against a missing bank id writes no
record, mutates nothing, and redirects the caller to the dashboard. -/
theorem post_donation_missing_bank (st : AppState) (user : User) (i : Nat)
    (content : String)
    (hrole : user.role = "donor") (hb : st.banks i = none) :
    post_donation st user i content = (Response.redirect "dashboard", st) := by
  unfold post_donation
  rw [if_neg (by simp [hrole]), hb]

/-- Claim C10: `post_donation` by a donor with an unrecognized stored
blood type, against an existing bank, discards the failed inventory
update (which returns `False`), changes no bank, and still writes the
`BloodPost` record claiming a unit was donated. -/
theorem post_donation_invalid_type (st : AppState) (user : User) (i : Nat)
    (content : String) (bank : BloodBank)
    (hrole : user.role = "donor") (hb : st.banks i = some bank)
    (hbt : type_map user.blood_type = none) :
    (bank.update_inventory user.blood_type "donate").1 = false ∧
    (post_donation st user i content).2.banks = st.banks ∧
    (post_donation st user i content).2.requests = st.requests ∧
    (post_donation st user i content).2.posts =
      st.posts ++
        [{ content := "Donated " ++ user.blood_type ++ " unit to " ++
             bank.name ++ ": " ++ content,
           user_id := user.id, blood_bank_id := some i }] := by
  have hup : bank.update_inventory user.blood_type "donate" = (false, bank) :=
    update_inventory_of_type_map_none bank user.blood_type "donate" hbt
  unfold post_donation
  rw [if_neg (by simp [hrole]), hb]
  refine ⟨by rw [hup], ?_, rfl, ?_⟩
  · funext j
    by_cases hj : j = i
    · subst hj; simp [hup, hb]
    · simp [hj]
  · simp [hup]

/-- The seed bank of the source's initialization block, with the
defaulted counters filled in: `O_neg=3, A_pos=50`, all others 10. -/
def bankCentral : BloodBank :=
  { name := "Central City Blood Center", location := "New York",
    A_pos := 50, B_pos := 10, O_pos := 10, AB_pos := 10,
    A_neg := 10, B_neg := 10, O_neg := 3, AB_neg := 10 }

/-- The seed bank with its `O-` stock depleted. -/
def bankDepleted : BloodBank := { bankCentral with O_neg := 0 }

/-- A concrete donor whose stored blood type is not a recognized label. -/
def donorUser : User :=
  { id := 2, username := "bob", blood_type := "XX",
    location := "Dallas", role := "donor" }

/-- A concrete recipient user. -/
def recipientUser : User :=
  { id := 1, username := "alice", blood_type := "A+",
    location := "New York", role := "recipient" }

/-- A concrete app state holding the seed bank under id 1. -/
def stateW : AppState :=
  { banks := fun j => if j = 1 then some bankCentral else none,
    posts := [], requests := [] }

/-- Witness for C1 at the depleted seed bank and label `O-`. -/
theorem request_depleted_unfulfilled_witness :
    ((bankDepleted.get_inventory).lookup "O-" = some 0) ∧
    (bankDepleted.update_inventory "O-" "request" = (false, bankDepleted) ∧
     (bankDepleted.update_inventory "O-" "request").2.get_inventory =
       bankDepleted.get_inventory) :=
  ⟨by decide, request_depleted_unfulfilled bankDepleted "O-" (by decide)⟩

/-- Witness for C2 at the seed bank, label `O-`, count 3. -/
theorem request_available_fulfilled_witness :
    ((bankCentral.get_inventory).lookup "O-" = some 3) ∧ (0 : Int) < 3 ∧
    ((bankCentral.update_inventory "O-" "request").1 = true ∧
     ((bankCentral.update_inventory "O-" "request").2.get_inventory).lookup "O-" =
       some (3 - 1) ∧
     ∀ T2 : String, T2 ≠ "O-" →
       ((bankCentral.update_inventory "O-" "request").2.get_inventory).lookup T2 =
         (bankCentral.get_inventory).lookup T2) :=
  ⟨by decide, by decide,
    request_available_fulfilled bankCentral "O-" 3 (by decide) (by decide)⟩

/-- Witness for C3 at the seed bank and label `AB+`. -/
theorem donate_succeeds_witness :
    ((bankCentral.get_inventory).lookup "AB+" = some 10) ∧
    ((bankCentral.update_inventory "AB+" "donate").1 = true ∧
     ((bankCentral.update_inventory "AB+" "donate").2.get_inventory).lookup "AB+" =
       some (10 + 1) ∧
     ∀ T2 : String, T2 ≠ "AB+" →
       ((bankCentral.update_inventory "AB+" "donate").2.get_inventory).lookup T2 =
         (bankCentral.get_inventory).lookup T2) :=
  ⟨by decide, donate_succeeds bankCentral "AB+" 10 (by decide)⟩

/-- Witness for C4 at the unrecognized label `C+`. -/
theorem invalid_label_no_mutation_witness :
    ("C+" ∉ labels) ∧
    (bankCentral.update_inventory "C+" "donate" = (false, bankCentral) ∧
     bankCentral.update_inventory "C+" "request" = (false, bankCentral)) :=
  ⟨by decide, invalid_label_no_mutation bankCentral "C+" (by decide)⟩

/-- Witness for C5 at the seed bank and a concrete operation list that
depletes `O-` past zero attempts and includes an unrecognized label. -/
theorem inventory_invariant_witness :
    nonneg bankCentral ∧
    (nonneg (applyOps bankCentral
        [("O-", "request"), ("O-", "request"), ("O-", "request"),
         ("O-", "request"), ("ZZ", "donate"), ("A+", "donate")]) ∧
     ∀ T ∈ labels,
       (((applyOps bankCentral
           [("O-", "request"), ("O-", "request"), ("O-", "request"),
            ("O-", "request"), ("ZZ", "donate"), ("A+", "donate")]).get_inventory).lookup
         T).isSome = true) :=
  ⟨by decide,
    inventory_invariant bankCentral
      [("O-", "request"), ("O-", "request"), ("O-", "request"),
       ("O-", "request"), ("ZZ", "donate"), ("A+", "donate")] (by decide)⟩

/-- Witness for C6 at a bank id (7) absent from the concrete state. -/
theorem request_blood_missing_bank_witness :
    (recipientUser.role = "recipient") ∧ (stateW.banks 7 = none) ∧
    ((request_blood stateW recipientUser "A+" 7).1 =
       Response.redirect "dashboard" ∧
     (request_blood stateW recipientUser "A+" 7).2.banks = stateW.banks ∧
     (request_blood stateW recipientUser "A+" 7).2.posts = stateW.posts ∧
     (request_blood stateW recipientUser "A+" 7).2.requests =
       stateW.requests ++
         [{ blood_type_needed := "A+", location_needed := "Unknown",
            user_id := recipientUser.id, blood_bank_id := 7,
            is_fulfilled := false }]) :=
  ⟨by decide, by decide,
    request_blood_missing_bank stateW recipientUser "A+" 7 (by decide) (by decide)⟩

/-- Witness for C7 at a bank id (9) absent from the concrete state. -/
theorem post_donation_missing_bank_witness :
    (donorUser.role = "donor") ∧ (stateW.banks 9 = none) ∧
    post_donation stateW donorUser 9 "hello" =
      (Response.redirect "dashboard", stateW) :=
  ⟨by decide, by decide,
    post_donation_missing_bank stateW donorUser 9 "hello" (by decide) (by decide)⟩

/-- Witness for C10 at the concrete state, the existing bank id 1 and a
donor whose stored blood type `XX` is unrecognized. -/
theorem post_donation_invalid_type_witness :
    (donorUser.role = "donor") ∧ (stateW.banks 1 = some bankCentral) ∧
    (type_map donorUser.blood_type = none) ∧
    ((bankCentral.update_inventory donorUser.blood_type "donate").1 = false ∧
     (post_donation stateW donorUser 1 "msg").2.banks = stateW.banks ∧
     (post_donation stateW donorUser 1 "msg").2.requests = stateW.requests ∧
     (post_donation stateW donorUser 1 "msg").2.posts =
       stateW.posts ++
         [{ content := "Donated " ++ donorUser.blood_type ++ " unit to " ++
              bankCentral.name ++ ": " ++ "msg",
            user_id := donorUser.id, blood_bank_id := some 1 }]) :=
  ⟨by decide, by decide, by decide,
    post_donation_invalid_type stateW donorUser 1 "msg" bankCentral
      (by decide) (by decide) (by decide)⟩
